import Mathlib

/-!
Verification development for the Mastersteam repository: a shallow embedding
of the fault-containment policy (valve/util.go), the per-address worker and
JSON-envelope assembly (Mastersteam.go), and a spec-modelled wire codec, with
theorems settling the specification claims.
-/

namespace Mastersteam

/-! ## Model of src/valve/util.go

A Go `func() error` either returns an error value (possibly nil) or panics
with some value. Errors are modelled by their message string; a Go panic
value is either an error (whose type assertion `r.(error)` succeeds) or any
other value, which `fmt.Errorf("%v", r)` renders to a string. -/

/-- A Go panic value: an error value carrying a message, or any other value
together with its fmt rendering. -/
inductive PanicVal where
  | errVal (msg : String)
  | otherVal (rendered : String)
deriving Repr, DecidableEq

/-- The observable behavior of a Go `func() error`: return an error value
(`none` models a nil error) or panic. -/
inductive FnBehavior where
  | ret (e : Option String)
  | panics (r : PanicVal)
deriving Repr, DecidableEq

/-- The outcome of executing a `func() error` under a containment policy:
an ordinary return, or a panic propagated to the caller. -/
inductive ExecResult where
  | ret (e : Option String)
  | panicked (r : PanicVal)
deriving Repr, DecidableEq

/-- valve/util.go `tryAndCatch`: runs `fn`; a panic is recovered and turned
into the returned error — the panic value itself when it is an error,
otherwise `fmt.Errorf("%v", r)`. -/
def tryAndCatch : FnBehavior → ExecResult
  | .ret e => .ret e
  | .panics (.errVal m) => .ret (some m)
  | .panics (.otherVal s) => .ret (some s)

/-- valve/util.go `tryNoCatch`: runs `fn` with no recovery, so a panic
propagates. -/
def tryNoCatch : FnBehavior → ExecResult
  | .ret e => .ret e
  | .panics r => .panicked r

/-- valve/util.go `Try`: the process-wide policy variable, defaulting to
`tryAndCatch`. -/
def Try : FnBehavior → ExecResult := tryAndCatch

/-- The string `tryAndCatch` produces for a caught panic value. -/
def panicMessage : PanicVal → String
  | .errVal m => m
  | .otherVal s => s

/-! ## Spec-modelled decode guard (claim C4)

The Wire Codec decoder bodies are not under src/; only their fault-containment
wrapper `tryAndCatch` is. The decode step and its error classification are
modelled from the spec. -/

/-- The error taxonomy of spec section 7. -/
inductive VErr where
  | networkError (msg : String)
  | timeoutError (msg : String)
  | protocolError (msg : String)
  | malformedFrame (msg : String)
  | directoryError (msg : String)
deriving Repr, DecidableEq

/-- Modelled from the spec: the behavior of a Wire Codec decode body on one
untrusted input — it produces a value, fails with an explicit decode error,
or raises an internal fault (a Go panic). The decoder bodies themselves are
absent from src/. -/
inductive DecodeBehavior (α : Type) where
  | ok (v : α)
  | err (msg : String)
  | fault (r : PanicVal)
deriving Repr, DecidableEq

/-- The observable outcome of a decode execution: a value, an ordinary error,
or a crash (an uncontained propagated fault). -/
inductive DecodeOutcome (α : Type) where
  | ok (v : α)
  | err (e : VErr)
  | crashed (r : PanicVal)
deriving Repr, DecidableEq

/-- Modelled from the spec: executing one decode step under a given
fault-containment policy. Explicit decode failures and errors recovered by
the policy are classified as `MalformedFrame` (spec sections 4.1 and 7); a
fault the policy propagates crashes the run. The decoder bodies are absent
from src/; the policy plumbing is src/valve/util.go. -/
def decodeUnder {α : Type} (policy : FnBehavior → ExecResult) (d : DecodeBehavior α) :
    DecodeOutcome α :=
  match d with
  | .ok v => .ok v
  | .err msg => .err (.malformedFrame msg)
  | .fault r =>
    match policy (.panics r) with
    | .ret (some m) => .err (.malformedFrame m)
    | .ret none => .err (.malformedFrame "")
    | .panicked r2 => .crashed r2

/-- Modelled from the spec: the decode entry point runs under the process-wide
default policy `Try`. -/
def guardedDecode {α : Type} (d : DecodeBehavior α) : DecodeOutcome α :=
  decodeUnder Try d

/-! ## Claim theorems for the fault-containment policy -/

/-- C1: under the default policy `Try = tryAndCatch`, a normally returning
function has its own result returned; a panic with value `r` yields an ordinary
error — `r` itself when `r` is an error, otherwise an error formatted from
`r` — and no panic ever propagates; and the default policy is `tryAndCatch`,
the swappable alternative being `tryNoCatch`. -/
theorem try_default_policy_contains_faults :
    (∀ e, Try (.ret e) = .ret e) ∧
    (∀ m, Try (.panics (.errVal m)) = .ret (some m)) ∧
    (∀ s, Try (.panics (.otherVal s)) = .ret (some s)) ∧
    (∀ fn, ∃ e, Try fn = .ret e) ∧
    Try = tryAndCatch := by
  refine ⟨fun e => rfl, fun m => rfl, fun s => rfl, ?_, rfl⟩
  intro fn
  cases fn with
  | ret e => exact ⟨e, rfl⟩
  | panics r => cases r with
    | errVal m => exact ⟨some m, rfl⟩
    | otherVal s => exact ⟨some s, rfl⟩

/-- C10: on every function that returns without panicking the two policies
agree and both return the result of the function itself; and for every function,
either the policies agree or the function panics (they differ only on
panicking functions — and on those `tryNoCatch` propagates while
`tryAndCatch` returns an ordinary error). -/
theorem policies_agree_unless_panic :
    (∀ e, tryAndCatch (.ret e) = .ret e ∧ tryNoCatch (.ret e) = .ret e) ∧
    (∀ fn, tryAndCatch fn = tryNoCatch fn ∨ ∃ r, fn = .panics r) ∧
    (∀ r, tryNoCatch (.panics r) = .panicked r ∧
      tryAndCatch (.panics r) = .ret (some (panicMessage r))) := by
  refine ⟨fun e => ⟨rfl, rfl⟩, ?_, ?_⟩
  · intro fn
    cases fn with
    | ret e => exact Or.inl rfl
    | panics r => exact Or.inr ⟨r, rfl⟩
  · intro r
    cases r with
    | errVal m => exact ⟨rfl, rfl⟩
    | otherVal s => exact ⟨rfl, rfl⟩

/-- C4: every internal fault raised while decoding untrusted peer input is
caught by the default fault-containment policy and converted to a
`MalformedFrame` outcome, and no decode execution ever crashes (the outcome
is always a value or an ordinary error). -/
theorem decode_fault_becomes_malformed_frame :
    (∀ (r : PanicVal),
      guardedDecode (DecodeBehavior.fault r : DecodeBehavior Nat) =
        .err (.malformedFrame (panicMessage r))) ∧
    (∀ (d : DecodeBehavior Nat),
      (∃ v, guardedDecode d = .ok v) ∨ (∃ e, guardedDecode d = .err e)) := by
  constructor
  · intro r
    cases r with
    | errVal m => rfl
    | otherVal s => rfl
  · intro d
    cases d with
    | ok v => exact Or.inl ⟨v, rfl⟩
    | err msg => exact Or.inr ⟨.malformedFrame msg, rfl⟩
    | fault r =>
      refine Or.inr ⟨.malformedFrame (panicMessage r), ?_⟩
      cases r with
      | errVal m => rfl
      | otherVal s => rfl

/-! ## Model of the per-address worker and envelope assembly in Mastersteam.go

The worker closure at Mastersteam.go:150-207 opens a querier, runs QueryInfo,
builds a `ServerObject`, conditionally runs QueryPlayers, and appends exactly
one keyed JSON entry via `addJSON`/`addError`. The network is abstracted as a
`QueryStep` telling, for one address, how its queries answered. -/

/-- Modelled from the spec: the server-type enum of spec section 3 with its
total display-string mapping; the decoding code lives in the valve package,
which is absent from src/. -/
inductive ServerType where
  | dedicated
  | listen
  | proxy
deriving Repr, DecidableEq

/-- Modelled from the spec: display string of a server type (`Type.String()`
in Mastersteam.go:177). -/
def ServerType.string : ServerType → String
  | .dedicated => "dedicated"
  | .listen => "listen"
  | .proxy => "proxy"

/-- Modelled from the spec: the OS enum of spec section 3; decoding code
absent from src/. -/
inductive ServerOS where
  | linux
  | windows
  | mac
deriving Repr, DecidableEq

/-- Modelled from the spec: display string of an OS (`OS.String()` in
Mastersteam.go:178). -/
def ServerOS.string : ServerOS → String
  | .linux => "linux"
  | .windows => "windows"
  | .mac => "mac"

/-- A player roster entry (spec section 3 PlayerRecord): index, display name
as raw bytes, score, connected duration in whole seconds. -/
structure PlayerRecord where
  index : Nat
  name : List Nat
  score : Nat
  duration : Nat
deriving Repr, DecidableEq

/-- The extended info block (`info.Ext` in Mastersteam.go:188-195). -/
structure ExtData where
  appId : Nat
  gameVersion : String
  port : Nat
  steamId : Nat
  gameModeDescription : String
  gameId : Nat
deriving Repr, DecidableEq

/-- The decoded info record as consumed by Mastersteam.go: the `vac` and
`visibility` fields are raw bytes (the code compares them to 1 and 0). -/
structure ServerInfo where
  protocol : Nat
  name : String
  mapName : String
  folder : String
  game : String
  players : Nat
  maxPlayers : Nat
  bots : Nat
  serverType : ServerType
  os : ServerOS
  vac : Nat
  visibility : Nat
  ext : Option ExtData
deriving Repr, DecidableEq

/-- The `ServerObject` JSON record of Mastersteam.go:39-61. -/
structure ServerObject where
  address : String
  protocol : Nat
  name : String
  mapName : String
  folder : String
  game : String
  players : Nat
  maxPlayers : Nat
  bots : Nat
  typeStr : String
  osStr : String
  visibility : String
  vac : Bool
  appId : Nat
  gameVersion : String
  port : Nat
  steamId : String
  gameMode : String
  gameId : String
  playersOnline : Option (List PlayerRecord)
deriving Repr, DecidableEq

/-- One entry of the emitted envelope: a full server record, or the
`ErrorObject` of Mastersteam.go:31-34 carrying the address and the error
string. -/
inductive Entry where
  | errorObj (ip : String) (error : String)
  | serverObj (obj : ServerObject)
deriving Repr, DecidableEq

/-- How the network answered for one address: endpoint creation failed
(Mastersteam.go:152-156), QueryInfo failed (159-163), or QueryInfo succeeded
with a record and QueryPlayers — if issued — would answer `playersResult`. -/
inductive QueryStep where
  | connectErr (msg : String)
  | infoErr (msg : String)
  | ok (info : ServerInfo) (playersResult : Except String (List PlayerRecord))
deriving Repr

/-- The visibility rendering of Mastersteam.go:183-187: byte 0 renders
"public", every other byte renders "private". -/
def visibilityString (v : Nat) : String :=
  if v == 0 then "public" else "private"

/-- The `ServerObject` construction of Mastersteam.go:167-195: base fields,
vac flag comparison with 1, visibility rendering, and the extended block
copied when present (Go zero values otherwise). -/
def buildServerObject (addr : String) (info : ServerInfo) : ServerObject :=
  let base : ServerObject :=
    { address := addr
      protocol := info.protocol
      name := info.name
      mapName := info.mapName
      folder := info.folder
      game := info.game
      players := info.players
      maxPlayers := info.maxPlayers
      bots := info.bots
      typeStr := info.serverType.string
      osStr := info.os.string
      visibility := visibilityString info.visibility
      vac := info.vac == 1
      appId := 0
      gameVersion := ""
      port := 0
      steamId := ""
      gameMode := ""
      gameId := ""
      playersOnline := none }
  match info.ext with
  | none => base
  | some e =>
    { base with
      appId := e.appId
      gameVersion := e.gameVersion
      port := e.port
      steamId := toString e.steamId
      gameMode := e.gameModeDescription
      gameId := toString e.gameId }

/-- The worker closure of Mastersteam.go:150-207 for one address: returns the
single entry it appends and whether it issued a QueryPlayers call (the call
inside the `info.Players > 0` branch at line 197). -/
def processAddr (addr : String) (q : QueryStep) : Entry × Bool :=
  match q with
  | .connectErr msg => (.errorObj addr msg, false)
  | .infoErr msg => (.errorObj addr msg, false)
  | .ok info pres =>
    let base := buildServerObject addr info
    if info.players > 0 then
      match pres with
      | .error _ => (.serverObj base, true)
      | .ok ps => (.serverObj { base with playersOnline := some ps }, true)
    else
      (.serverObj base, false)

/-- The output state of Mastersteam.go: the keyed entries written to
`sOutputBuffer` and the `sNumServers` counter. -/
structure RunState where
  entries : List (String × Entry)
  numServers : Nat
deriving Repr, DecidableEq

/-- `addJSON` (Mastersteam.go:63-80): appends one keyed entry and increments
`sNumServers`. -/
def addJSON (st : RunState) (hostAndPort : String) (e : Entry) : RunState :=
  { entries := st.entries ++ [(hostAndPort, e)], numServers := st.numServers + 1 }

/-- Modelled from the spec: the batch package is absent from src/; per spec
sections 4.4 and 5 every submitted address runs the worker exactly once and
the sink serializes concurrent deliveries, so a round is a fold of `addJSON`
over the submitted addresses. -/
def runBatch (env : String → QueryStep) (addrs : List String) (st : RunState) : RunState :=
  addrs.foldl (fun s a => addJSON s a (processAddr a (env a)).1) st

/-- Modelled from the spec: the master-directory enumeration (valve package,
absent from src/) delivers zero or more address pages to the batch callback
and then either succeeds or reports a `DirectoryError` (the `err` checked at
Mastersteam.go:221). -/
structure DirectoryResult where
  pages : List (List String)
  failure : Option String
deriving Repr, DecidableEq

/-- The observable outcome of one `newServerQuerier` run: process exit
(`os.Exit(1)` at Mastersteam.go:223) or the emitted envelope with its keyed
data entries and `"total"` count (lines 233-235). -/
inductive RunResult where
  | exitFailure (code : Nat)
  | output (data : List (String × Entry)) (total : Nat)
deriving Repr, DecidableEq

/-- `newServerQuerier` (Mastersteam.go:143-238): resets the state, runs the
batch over every delivered page, exits the process with code 1 on a
directory failure, and otherwise emits the envelope whose `"total"` field is
the final `sNumServers`. -/
def newServerQuerier (dir : DirectoryResult) (env : String → QueryStep) : RunResult :=
  match dir.failure with
  | some _ => .exitFailure 1
  | none =>
    let st := runBatch env dir.pages.flatten { entries := [], numServers := 0 }
    .output st.entries st.numServers

/-- Unfolding a batch round: it appends exactly the per-address entries in
submission order and advances the counter by the number of addresses. -/
theorem runBatch_eq (env : String → QueryStep) (addrs : List String) (st : RunState) :
    runBatch env addrs st =
      { entries := st.entries ++ addrs.map (fun a => (a, (processAddr a (env a)).1)),
        numServers := st.numServers + addrs.length } := by
  induction addrs generalizing st with
  | nil => simp [runBatch]
  | cons a rest ih =>
    simp only [runBatch, List.foldl_cons, List.map_cons, List.length_cons]
    rw [show (List.foldl (fun s x => addJSON s x (processAddr x (env x)).1) (addJSON st a (processAddr a (env a)).1) rest) = runBatch env rest (addJSON st a (processAddr a (env a)).1) from rfl, ih]
    simp [addJSON, Nat.add_comm, Nat.add_assoc, Nat.add_left_comm]

/-! ## Claim theorems for the worker and envelope -/

/-- C2: a successful run over the submitted addresses emits exactly one
outcome entry per address, keyed and in submission order, and the emitted
`total` field equals the number of appended entries. -/
theorem one_outcome_per_address_and_total :
    ∀ (pages : List (List String)) (env : String → QueryStep),
      newServerQuerier ⟨pages, none⟩ env =
        .output (pages.flatten.map (fun a => (a, (processAddr a (env a)).1)))
          ((pages.flatten.map (fun a => (a, (processAddr a (env a)).1))).length) := by
  intro pages env
  simp only [newServerQuerier, runBatch_eq, List.length_map, List.nil_append, Nat.zero_add]

/-- C3: a player query is issued for an address only when its decoded info
record reports strictly more than zero players; and it is never issued when
the record reports zero players. -/
theorem players_query_only_when_positive :
    (∀ addr q, (processAddr addr q).2 = true →
      ∃ info pres, q = .ok info pres ∧ 0 < info.players) ∧
    (∀ addr info pres, info.players = 0 →
      (processAddr addr (.ok info pres)).2 = false) := by
  constructor
  · intro addr q h
    cases q with
    | connectErr msg => simp [processAddr] at h
    | infoErr msg => simp [processAddr] at h
    | ok info pres =>
      refine ⟨info, pres, rfl, ?_⟩
      by_contra hp
      simp [processAddr, hp] at h
  · intro addr info pres h
    cases pres with
    | error e => simp [processAddr, h]
    | ok ps => simp [processAddr, h]

/-- C3 witness: on a concrete address whose info reports one player and whose
player query succeeds, the worker issues the player query, and the theorem
yields the gate condition. -/
theorem players_query_only_when_positive_witness :
    (∃ info pres,
      QueryStep.ok
        { protocol := 17, name := "s", mapName := "m", folder := "f", game := "g",
          players := 1, maxPlayers := 8, bots := 0, serverType := .dedicated,
          os := .linux, vac := 0, visibility := 0, ext := none }
        (Except.ok ([] : List PlayerRecord)) = .ok info pres ∧ 0 < info.players) ∧
    (processAddr "1.2.3.4:27015"
      (QueryStep.ok
        { protocol := 17, name := "s", mapName := "m", folder := "f", game := "g",
          players := 0, maxPlayers := 8, bots := 0, serverType := .dedicated,
          os := .linux, vac := 0, visibility := 0, ext := none }
        (Except.ok ([] : List PlayerRecord)))).2 = false := by
  constructor
  · exact players_query_only_when_positive.1 "1.2.3.4:27015"
      (QueryStep.ok
        { protocol := 17, name := "s", mapName := "m", folder := "f", game := "g",
          players := 1, maxPlayers := 8, bots := 0, serverType := .dedicated,
          os := .linux, vac := 0, visibility := 0, ext := none }
        (Except.ok ([] : List PlayerRecord))) rfl
  · exact players_query_only_when_positive.2 "1.2.3.4:27015"
      { protocol := 17, name := "s", mapName := "m", folder := "f", game := "g",
        players := 0, maxPlayers := 8, bots := 0, serverType := .dedicated,
        os := .linux, vac := 0, visibility := 0, ext := none }
      (Except.ok ([] : List PlayerRecord)) rfl

/-- C5: a directory-enumeration failure is fatal to the whole run — the run
exits with failure code 1 and surfaces no envelope and no per-address
outcome, whatever pages were already dispatched. -/
theorem directory_error_is_fatal :
    ∀ (pages : List (List String)) (msg : String) (env : String → QueryStep),
      newServerQuerier ⟨pages, some msg⟩ env = .exitFailure 1 := by
  intro pages msg env
  rfl

/-- C7: for every address whose endpoint creation or info query fails, the
appended entry is the error object carrying that address and the error
string, in place of a full record. -/
theorem failed_address_yields_error_object :
    ∀ (addr msg : String),
      processAddr addr (.connectErr msg) = (.errorObj addr msg, false) ∧
      processAddr addr (.infoErr msg) = (.errorObj addr msg, false) := by
  intro addr msg
  exact ⟨rfl, rfl⟩

/-- C9: when the info query succeeds but the player query fails, the address
is still reported as a full server record whose `players_online` field is
nil, and no error entry is produced for it. -/
theorem player_query_error_discarded :
    ∀ (addr : String) (info : ServerInfo) (e : String), 0 < info.players →
      processAddr addr (.ok info (.error e)) =
        (.serverObj (buildServerObject addr info), true) ∧
      (buildServerObject addr info).playersOnline = none := by
  intro addr info e h
  constructor
  · simp [processAddr, h]
  · unfold buildServerObject
    cases info.ext with
    | none => rfl
    | some x => rfl

/-- C9 witness: a concrete address with two reported players whose player
query fails is reported as a record with `players_online` omitted. -/
theorem player_query_error_discarded_witness :
    processAddr "1.2.3.4:27015"
      (QueryStep.ok
        { protocol := 17, name := "s", mapName := "m", folder := "f", game := "g",
          players := 2, maxPlayers := 8, bots := 0, serverType := .dedicated,
          os := .linux, vac := 0, visibility := 0, ext := none }
        (Except.error "timeout")) =
      (.serverObj (buildServerObject "1.2.3.4:27015"
        { protocol := 17, name := "s", mapName := "m", folder := "f", game := "g",
          players := 2, maxPlayers := 8, bots := 0, serverType := .dedicated,
          os := .linux, vac := 0, visibility := 0, ext := none }), true) ∧
    (buildServerObject "1.2.3.4:27015"
      { protocol := 17, name := "s", mapName := "m", folder := "f", game := "g",
        players := 2, maxPlayers := 8, bots := 0, serverType := .dedicated,
        os := .linux, vac := 0, visibility := 0, ext := none }).playersOnline = none :=
  player_query_error_discarded "1.2.3.4:27015"
    { protocol := 17, name := "s", mapName := "m", folder := "f", game := "g",
      players := 2, maxPlayers := 8, bots := 0, serverType := .dedicated,
      os := .linux, vac := 0, visibility := 0, ext := none }
    "timeout" (by decide)

/-! ## Claim C6: unrecognized field bytes

The server-type and OS byte decoders live in the valve package, absent from
src/, and are modelled from the spec; the visibility rendering is in src
(Mastersteam.go:183-187) and is the authority for the visibility byte. -/

/-- Modelled from the spec: the wire byte of a server type (the letters d, l,
p of the query protocol). -/
def ServerType.toByte : ServerType → Nat
  | .dedicated => 100
  | .listen => 108
  | .proxy => 112

/-- Modelled from the spec: the wire byte of an OS (the letters l, w, m). -/
def ServerOS.toByte : ServerOS → Nat
  | .linux => 108
  | .windows => 119
  | .mac => 109

/-- Modelled from the spec: decoding a server-type byte; an unrecognized
value fails with `MalformedFrame`. -/
def decodeServerType (b : Nat) : Except VErr ServerType :=
  if b = 100 then .ok .dedicated
  else if b = 108 then .ok .listen
  else if b = 112 then .ok .proxy
  else .error (.malformedFrame "unrecognized server type byte")

/-- Modelled from the spec: decoding an OS byte; an unrecognized value fails
with `MalformedFrame`. -/
def decodeOS (b : Nat) : Except VErr ServerOS :=
  if b = 108 then .ok .linux
  else if b = 119 then .ok .windows
  else if b = 109 then .ok .mac
  else .error (.malformedFrame "unrecognized OS byte")

/-- A concrete decoded info record whose visibility byte is 7 — neither of
the two recognized values 0 and 1. -/
def infoWithVisibilitySeven : ServerInfo :=
  { protocol := 17, name := "srv", mapName := "m", folder := "f", game := "g",
    players := 0, maxPlayers := 10, bots := 0, serverType := .dedicated,
    os := .linux, vac := 0, visibility := 7, ext := none }

/-- C6 counterexample: an info record whose visibility byte is the
unrecognized value 7 is processed into a normal full server record whose
visibility display string is the defaulted "private" — no `MalformedFrame`
failure and no error entry occurs, contradicting the claim that the
visibility byte is never silently defaulted. -/
theorem visibility_byte_silently_defaulted :
    (processAddr "1.2.3.4:27015" (.ok infoWithVisibilitySeven (Except.ok []))).1 =
      .serverObj (buildServerObject "1.2.3.4:27015" infoWithVisibilitySeven) ∧
    (buildServerObject "1.2.3.4:27015" infoWithVisibilitySeven).visibility = "private" ∧
    visibilityString 7 = "private" := by
  refine ⟨rfl, rfl, rfl⟩

/-- C6 amended: unrecognized server-type and OS bytes fail with
`MalformedFrame` (spec-modelled decoders; that code is absent from src/),
but the visibility byte is totalized, never rejected: byte 0 renders
"public" and every other byte, recognized or not, silently renders
"private". -/
theorem unrecognized_byte_handling :
    (∀ b, b ≠ 100 → b ≠ 108 → b ≠ 112 →
      decodeServerType b = .error (.malformedFrame "unrecognized server type byte")) ∧
    (∀ b, b ≠ 108 → b ≠ 119 → b ≠ 109 →
      decodeOS b = .error (.malformedFrame "unrecognized OS byte")) ∧
    visibilityString 0 = "public" ∧
    (∀ v, v ≠ 0 → visibilityString v = "private") := by
  refine ⟨?_, ?_, rfl, ?_⟩
  · intro b h1 h2 h3
    simp [decodeServerType, h1, h2, h3]
  · intro b h1 h2 h3
    simp [decodeOS, h1, h2, h3]
  · intro v hv
    simp [visibilityString, hv]

/-- C6 amended witness: the unrecognized byte 2 fails both spec-modelled
decoders, and the visibility bytes 0 and 2 render "public" and "private". -/
theorem unrecognized_byte_handling_witness :
    decodeServerType 2 = .error (.malformedFrame "unrecognized server type byte") ∧
    decodeOS 2 = .error (.malformedFrame "unrecognized OS byte") ∧
    visibilityString 0 = "public" ∧
    visibilityString 2 = "private" :=
  ⟨unrecognized_byte_handling.1 2 (by decide) (by decide) (by decide),
   unrecognized_byte_handling.2.1 2 (by decide) (by decide) (by decide),
   unrecognized_byte_handling.2.2.1,
   unrecognized_byte_handling.2.2.2 2 (by decide)⟩

/-! ## Claim C8: wire codec round trip

Modelled from the spec: the Wire Codec (spec sections 4.1 and 6) is not under
src/. Frames are byte lists; strings are length-prefixed and bounds-checked;
multi-byte integers are little-endian fixed width; a single-packet frame is
the 0xFFFFFFFF marker, a response opcode, then the body. -/

/-- Bind for a parser result carrying the unread remainder. -/
def pbind {α β : Type} (o : Option (α × List Nat)) (f : α → List Nat → Option β) : Option β :=
  match o with
  | none => none
  | some (a, bs) => f a bs

/-- Bind for a plain optional intermediate value. -/
def obind {α β : Type} (o : Option α) (f : α → Option β) : Option β :=
  match o with
  | none => none
  | some a => f a

/-- Modelled from the spec: read one byte, rejecting out-of-range values and
an exhausted buffer. -/
def readByte : List Nat → Option (Nat × List Nat)
  | [] => none
  | b :: bs => if b < 256 then some (b, bs) else none

/-- Modelled from the spec: little-endian fixed-width integer encoding,
`w` bytes. -/
def encNatLE : Nat → Nat → List Nat
  | 0, _ => []
  | w + 1, n => n % 256 :: encNatLE w (n / 256)

/-- Modelled from the spec: read a `w`-byte little-endian integer. -/
def readNatLE : Nat → List Nat → Option (Nat × List Nat)
  | 0, bs => some (0, bs)
  | _ + 1, [] => none
  | w + 1, b :: bs =>
    if b < 256 then
      pbind (readNatLE w bs) fun n rest => some (b + 256 * n, rest)
    else none

/-- Modelled from the spec: length-prefixed string encoding. -/
def encStr (s : List Nat) : List Nat := s.length :: s

/-- Modelled from the spec: read a length-prefixed string, bounds-checking
the declared length against the remaining buffer before reading. -/
def readStr : List Nat → Option (List Nat × List Nat)
  | [] => none
  | n :: bs =>
    if n < 256 then
      if n ≤ bs.length then some (bs.take n, bs.drop n) else none
    else none

/-- The visibility enum of spec section 3. -/
inductive Visibility where
  | visPublic
  | visPrivate
deriving Repr, DecidableEq

/-- Modelled from the spec: wire byte of a visibility value. -/
def Visibility.toByte : Visibility → Nat
  | .visPublic => 0
  | .visPrivate => 1

/-- Modelled from the spec: decode a visibility byte; only 0 and 1 are
recognized. -/
def readVisibility (b : Nat) : Option Visibility :=
  if b = 0 then some .visPublic else if b = 1 then some .visPrivate else none

/-- Modelled from the spec: decode the anti-cheat flag byte. -/
def readVacFlag (b : Nat) : Option Bool :=
  if b = 1 then some true else if b = 0 then some false else none

/-- The optional extended info block of spec section 3, with string fields as
raw bytes. -/
structure ExtBlock where
  appId : Nat
  gameVersion : List Nat
  port : Nat
  steamId : Nat
  gameMode : List Nat
  gameId : List Nat
deriving Repr, DecidableEq

/-- The info record of spec section 3, as carried by the wire codec. -/
structure InfoRecord where
  protocol : Nat
  name : List Nat
  mapName : List Nat
  folder : List Nat
  game : List Nat
  players : Nat
  maxPlayers : Nat
  bots : Nat
  serverType : ServerType
  os : ServerOS
  visibility : Visibility
  vac : Bool
  ext : Option ExtBlock
deriving Repr, DecidableEq

/-- Field bounds under which an extended block fits its wire widths. -/
def ExtBlock.valid (e : ExtBlock) : Bool :=
  decide (e.appId < 256 ^ 2) && decide (e.gameVersion.length < 256) &&
  decide (e.port < 256 ^ 2) && decide (e.steamId < 256 ^ 8) &&
  decide (e.gameMode.length < 256) && decide (e.gameId.length < 256)

/-- Field bounds under which an info record fits its wire widths. -/
def InfoRecord.valid (x : InfoRecord) : Bool :=
  decide (x.protocol < 256) && decide (x.name.length < 256) &&
  decide (x.mapName.length < 256) && decide (x.folder.length < 256) &&
  decide (x.game.length < 256) && decide (x.players < 256) &&
  decide (x.maxPlayers < 256) && decide (x.bots < 256) &&
  (match x.ext with
   | none => true
   | some e => e.valid)

/-- Field bounds under which a player entry fits its wire widths. -/
def PlayerRecord.valid (p : PlayerRecord) : Bool :=
  decide (p.index < 256) && decide (p.name.length < 256) &&
  decide (p.score < 256 ^ 4) && decide (p.duration < 256 ^ 4)

/-- Modelled from the spec: encode the optional extended block behind a
presence flag byte. -/
def encodeExt : Option ExtBlock → List Nat
  | none => [0]
  | some e =>
    1 :: (encNatLE 2 e.appId ++ encStr e.gameVersion ++ encNatLE 2 e.port ++
      encNatLE 8 e.steamId ++ encStr e.gameMode ++ encStr e.gameId)

/-- Modelled from the spec: decode the optional extended block. -/
def readExt (bs : List Nat) : Option (Option ExtBlock × List Nat) :=
  pbind (readByte bs) fun flag bs =>
  if flag = 0 then some (none, bs)
  else if flag = 1 then
    pbind (readNatLE 2 bs) fun appId bs =>
    pbind (readStr bs) fun gv bs =>
    pbind (readNatLE 2 bs) fun port bs =>
    pbind (readNatLE 8 bs) fun sid bs =>
    pbind (readStr bs) fun gm bs =>
    pbind (readStr bs) fun gid bs =>
    some (some ⟨appId, gv, port, sid, gm, gid⟩, bs)
  else none

/-- Modelled from the spec: encode an info response body. -/
def encodeInfoBody (x : InfoRecord) : List Nat :=
  x.protocol ::
    (encStr x.name ++ encStr x.mapName ++ encStr x.folder ++ encStr x.game ++
      (x.players :: x.maxPlayers :: x.bots :: x.serverType.toByte :: x.os.toByte ::
        x.visibility.toByte :: (if x.vac then 1 else 0) :: encodeExt x.ext))

/-- Modelled from the spec: decode an info response body, returning the
record and the unread remainder. -/
def decodeInfoBody (bs : List Nat) : Option (InfoRecord × List Nat) :=
  pbind (readByte bs) fun protocol bs =>
  pbind (readStr bs) fun name bs =>
  pbind (readStr bs) fun mapName bs =>
  pbind (readStr bs) fun folder bs =>
  pbind (readStr bs) fun game bs =>
  pbind (readByte bs) fun players bs =>
  pbind (readByte bs) fun maxPlayers bs =>
  pbind (readByte bs) fun bots bs =>
  pbind (readByte bs) fun tb bs =>
  obind (decodeServerType tb).toOption fun st =>
  pbind (readByte bs) fun ob bs =>
  obind (decodeOS ob).toOption fun osv =>
  pbind (readByte bs) fun vb bs =>
  obind (readVisibility vb) fun vis =>
  pbind (readByte bs) fun cb bs =>
  obind (readVacFlag cb) fun vac =>
  pbind (readExt bs) fun ext bs =>
  some ({ protocol := protocol, name := name, mapName := mapName, folder := folder,
          game := game, players := players, maxPlayers := maxPlayers, bots := bots,
          serverType := st, os := osv, visibility := vis, vac := vac, ext := ext }, bs)

/-- Modelled from the spec: encode one player roster entry. -/
def encodePlayerEntry (p : PlayerRecord) : List Nat :=
  p.index :: (encStr p.name ++ encNatLE 4 p.score ++ encNatLE 4 p.duration)

/-- Modelled from the spec: decode one player roster entry. -/
def readPlayerEntry (bs : List Nat) : Option (PlayerRecord × List Nat) :=
  pbind (readByte bs) fun i bs =>
  pbind (readStr bs) fun nm bs =>
  pbind (readNatLE 4 bs) fun sc bs =>
  pbind (readNatLE 4 bs) fun du bs =>
  some (⟨i, nm, sc, du⟩, bs)

/-- Modelled from the spec: decode `n` consecutive player entries. -/
def readPlayers : Nat → List Nat → Option (List PlayerRecord × List Nat)
  | 0, bs => some ([], bs)
  | n + 1, bs =>
    pbind (readPlayerEntry bs) fun p bs =>
    pbind (readPlayers n bs) fun ps bs =>
    some (p :: ps, bs)

/-- Modelled from the spec: encode a player response body as a count byte
followed by that many entries. -/
def encodePlayerBody (ps : List PlayerRecord) : List Nat :=
  ps.length :: (ps.map encodePlayerEntry).flatten

/-- Modelled from the spec: decode a player response body. -/
def decodePlayerBody (bs : List Nat) : Option (List PlayerRecord × List Nat) :=
  pbind (readByte bs) fun n bs => readPlayers n bs

/-- The payload of a single (non-fragmented) response frame. -/
inductive FrameContent where
  | infoResp (x : InfoRecord)
  | playerResp (ps : List PlayerRecord)
deriving Repr, DecidableEq

/-- Field bounds under which a frame payload fits its wire widths. -/
def FrameContent.valid : FrameContent → Bool
  | .infoResp x => x.valid
  | .playerResp ps => decide (ps.length < 256) && ps.all PlayerRecord.valid

/-- Modelled from the spec: encode a single-packet frame — the 0xFFFFFFFF
single-packet marker, the response opcode (0x49 info, 0x44 player), then the
body. -/
def encodeFrame : FrameContent → List Nat
  | .infoResp x => 255 :: 255 :: 255 :: 255 :: 73 :: encodeInfoBody x
  | .playerResp ps => 255 :: 255 :: 255 :: 255 :: 68 :: encodePlayerBody ps

/-- Modelled from the spec: decode a single-packet frame, discriminating on
the marker and opcode and requiring the body to consume the whole buffer. -/
def decodeFrame (bs : List Nat) : Option FrameContent :=
  match bs with
  | 255 :: 255 :: 255 :: 255 :: 73 :: rest =>
    match decodeInfoBody rest with
    | some (x, []) => some (.infoResp x)
    | _ => none
  | 255 :: 255 :: 255 :: 255 :: 68 :: rest =>
    match decodePlayerBody rest with
    | some (ps, []) => some (.playerResp ps)
    | _ => none
  | _ => none

/-! ## Round-trip lemmas for the codec -/

/-- Reading one encoded byte returns it and the remainder. -/
theorem readByte_encode {b : Nat} (t : List Nat) (h : b < 256) :
    readByte (b :: t) = some (b, t) := by
  simp [readByte, h]

/-- Reading an encoded little-endian integer returns it and the remainder. -/
theorem readNatLE_encode (w : Nat) {n : Nat} (t : List Nat) (h : n < 256 ^ w) :
    readNatLE w (encNatLE w n ++ t) = some (n, t) := by
  induction w generalizing n t with
  | zero =>
    have h0 : n = 0 := Nat.lt_one_iff.mp (by simpa using h)
    subst h0
    simp [encNatLE, readNatLE]
  | succ w ih =>
    have hm : n % 256 < 256 := Nat.mod_lt _ (by decide)
    have hd : n / 256 < 256 ^ w := by
      rw [Nat.div_lt_iff_lt_mul (by decide : 0 < 256)]
      calc n < 256 ^ (w + 1) := h
        _ = 256 ^ w * 256 := by rw [pow_succ]
    simp [encNatLE, readNatLE, hm, pbind, ih t hd, Nat.mod_add_div]

/-- Reading an encoded length-prefixed string returns it and the remainder. -/
theorem readStr_encode {s : List Nat} (t : List Nat) (h : s.length < 256) :
    readStr (encStr s ++ t) = some (s, t) := by
  simp [readStr, encStr, h, List.take_left, List.drop_left]

/-- The spec-modelled server-type decoder inverts the encoder. -/
theorem decodeServerType_toByte (st : ServerType) :
    (decodeServerType st.toByte).toOption = some st := by
  cases st <;> rfl

/-- The spec-modelled OS decoder inverts the encoder. -/
theorem decodeOS_toByte (o : ServerOS) :
    (decodeOS o.toByte).toOption = some o := by
  cases o <;> rfl

/-- The visibility decoder inverts the encoder. -/
theorem readVisibility_toByte (v : Visibility) :
    readVisibility v.toByte = some v := by
  cases v <;> rfl

/-- The anti-cheat flag decoder inverts the encoder. -/
theorem readVacFlag_encode (b : Bool) :
    readVacFlag (if b then 1 else 0) = some b := by
  cases b <;> rfl

/-- Server-type wire bytes are in range. -/
theorem serverType_toByte_lt (st : ServerType) : st.toByte < 256 := by
  cases st <;> decide

/-- OS wire bytes are in range. -/
theorem serverOS_toByte_lt (o : ServerOS) : o.toByte < 256 := by
  cases o <;> decide

/-- Visibility wire bytes are in range. -/
theorem visibility_toByte_lt (v : Visibility) : v.toByte < 256 := by
  cases v <;> decide

/-- The anti-cheat flag byte is in range. -/
theorem vacByte_lt (b : Bool) : (if b then 1 else 0) < 256 := by
  cases b <;> decide

/-- Reading an encoded extended block returns it and the remainder. -/
theorem readExt_encode (e : Option ExtBlock) (t : List Nat)
    (h : (match e with | none => true | some b => b.valid) = true) :
    readExt (encodeExt e ++ t) = some (e, t) := by
  cases e with
  | none => simp [readExt, encodeExt, readByte, pbind]
  | some b =>
    simp only [ExtBlock.valid, Bool.and_eq_true, decide_eq_true_eq, and_assoc] at h
    obtain ⟨h1, h2, h3, h4, h5, h6⟩ := h
    norm_num at h1 h3 h4
    simp [readExt, encodeExt, pbind, readByte_encode, readNatLE_encode, readStr_encode,
      h1, h2, h3, h4, h5, h6, List.append_assoc]

/-- Decoding an encoded valid info body returns the record and the
remainder. -/
theorem decodeInfoBody_encode (x : InfoRecord) (t : List Nat) (h : x.valid = true) :
    decodeInfoBody (encodeInfoBody x ++ t) = some (x, t) := by
  simp only [InfoRecord.valid, Bool.and_eq_true, decide_eq_true_eq, and_assoc] at h
  obtain ⟨h1, h2, h3, h4, h5, h6, h7, h8, hext⟩ := h
  simp [decodeInfoBody, encodeInfoBody, pbind, obind,
    readByte_encode, readStr_encode, h1, h2, h3, h4, h5, h6, h7, h8,
    serverType_toByte_lt, serverOS_toByte_lt, visibility_toByte_lt, vacByte_lt,
    decodeServerType_toByte, decodeOS_toByte, readVisibility_toByte, readVacFlag_encode,
    readExt_encode x.ext t hext, List.append_assoc]

/-- Decoding an encoded valid player entry returns it and the remainder. -/
theorem readPlayerEntry_encode (p : PlayerRecord) (t : List Nat) (h : p.valid = true) :
    readPlayerEntry (encodePlayerEntry p ++ t) = some (p, t) := by
  simp only [PlayerRecord.valid, Bool.and_eq_true, decide_eq_true_eq, and_assoc] at h
  obtain ⟨h1, h2, h3, h4⟩ := h
  norm_num at h3 h4
  simp [readPlayerEntry, encodePlayerEntry, pbind, readByte_encode, readStr_encode,
    readNatLE_encode, h1, h2, h3, h4, List.append_assoc]

/-- Decoding an encoded sequence of valid player entries returns it and the
remainder. -/
theorem readPlayers_encode (ps : List PlayerRecord) (t : List Nat)
    (h : ps.all PlayerRecord.valid = true) :
    readPlayers ps.length ((ps.map encodePlayerEntry).flatten ++ t) = some (ps, t) := by
  induction ps generalizing t with
  | nil => simp [readPlayers]
  | cons p rest ih =>
    simp only [List.all_cons, Bool.and_eq_true] at h
    simp [readPlayers, pbind, readPlayerEntry_encode p _ h.1, ih t h.2, List.append_assoc]

/-- Decoding an encoded valid player body returns the roster and the
remainder. -/
theorem decodePlayerBody_encode (ps : List PlayerRecord) (t : List Nat)
    (hlen : ps.length < 256) (h : ps.all PlayerRecord.valid = true) :
    decodePlayerBody (encodePlayerBody ps ++ t) = some (ps, t) := by
  simp [decodePlayerBody, encodePlayerBody, pbind, readByte_encode, hlen,
    readPlayers_encode ps t h]

/-- C8: for every valid info or player record encoded as a single
(non-fragmented) frame, decoding the encoding reproduces the original record
exactly. -/
theorem decode_encode_roundtrip (c : FrameContent) (h : c.valid = true) :
    decodeFrame (encodeFrame c) = some c := by
  cases c with
  | infoResp x =>
    have hx : decodeInfoBody (encodeInfoBody x ++ []) = some (x, []) :=
      decodeInfoBody_encode x [] (by simpa [FrameContent.valid] using h)
    rw [List.append_nil] at hx
    simp [encodeFrame, decodeFrame, hx]
  | playerResp ps =>
    simp only [FrameContent.valid, Bool.and_eq_true, decide_eq_true_eq] at h
    have hx : decodePlayerBody (encodePlayerBody ps ++ []) = some (ps, []) :=
      decodePlayerBody_encode ps [] h.1 h.2
    rw [List.append_nil] at hx
    simp [encodeFrame, decodeFrame, hx]

/-- A concrete info frame with an extended block, used as round-trip
witness input. -/
def sampleInfoFrame : FrameContent :=
  .infoResp
    { protocol := 17, name := [97], mapName := [98], folder := [102], game := [103],
      players := 2, maxPlayers := 8, bots := 0, serverType := .dedicated, os := .linux,
      visibility := .visPublic, vac := true,
      ext := some { appId := 730, gameVersion := [49], port := 2402,
                    steamId := 12345, gameMode := [99], gameId := [49] } }

/-- A concrete one-entry player frame, used as round-trip witness input. -/
def samplePlayerFrame : FrameContent :=
  .playerResp [{ index := 0, name := [97], score := 5, duration := 60 }]

/-- C8 witness: the concrete info and player frames are valid and round-trip
through the codec. -/
theorem decode_encode_roundtrip_witness :
    sampleInfoFrame.valid = true ∧
    decodeFrame (encodeFrame sampleInfoFrame) = some sampleInfoFrame ∧
    samplePlayerFrame.valid = true ∧
    decodeFrame (encodeFrame samplePlayerFrame) = some samplePlayerFrame :=
  ⟨by decide, decode_encode_roundtrip sampleInfoFrame (by decide),
   by decide, decode_encode_roundtrip samplePlayerFrame (by decide)⟩

end Mastersteam
